import Mathlib

/-!
Verification of the reverse-proxy / multi-service lifecycle core of the
gerald-railway-template deployment wrapper.

Shallow embedding: the relevant JavaScript functions of the repository are
translated into executable Lean definitions.  External effects (the filesystem,
the spawned configuration CLI, HTTP probes) are modelled as oracle inputs;
the single-threaded Node event loop is modelled where a claim is about
interleaving (explicit atomic segments that run to completion between
asynchronous suspension points).

Sources embedded here:
  - src/src/lib/gateway.js        (startGateway, ensureGatewayRunning, crash handler)
  - src/unnamed/part_006          (routing middleware, proxy event handlers,
                                   upgrade handler, SIGTERM listeners, route table)
  - src/unnamed/part_007          (serveStaticSite, autoSaveDevChanges)
-/

/- ----------------------------------------------------------------------------
Crash-loop handling: the gatewayProc.on("exit", ...) listener in
src/src/lib/gateway.js lines 291-319.
---------------------------------------------------------------------------- -/

/-- Constant MAX_CRASH_RESTARTS from gateway.js line 25. -/
def MAX_CRASH_RESTARTS : Nat := 5

/-- Constant CRASH_WINDOW_MS from gateway.js line 26 (5 minutes). -/
def CRASH_WINDOW_MS : Nat := 300000

/-- The mutable counters crashCount and lastCrashTime of gateway.js
(lines 23-24), which the exit listener reads and writes. -/
structure CrashState where
  crashCount : Nat
  lastCrashTime : Nat
deriving Repr, DecidableEq

/-- One process-exit event as delivered to the exit listener: the exit code
(none models the JavaScript null that accompanies a signal death), the
signal (none models null), and the wall-clock time Date.now() at which the
listener runs. -/
structure ExitEvent where
  code : Option Int
  signal : Option String
  now : Nat
deriving Repr, DecidableEq

/-- The guard of the auto-restart branch in the exit listener (gateway.js
line 296): the exit was not caused by an intentional stop signal, the exit
code is non-zero (null compares unequal to 0 in JavaScript), and a token was
stored for restart. -/
def unexpectedExit (e : ExitEvent) (tokenPresent : Bool) : Bool :=
  e.signal ≠ some "SIGTERM" && e.signal ≠ some "SIGINT" && e.code ≠ some 0 && tokenPresent

/-- The exit listener of gateway.js lines 291-319, restricted to its
observable effect on the crash counters and the restart decision.  Returns
the updated counters together with the scheduled auto-restart delay in
milliseconds (none when no restart is scheduled).  Mirrors the source: the
counter is reset when the previous crash is further in the past than
CRASH_WINDOW_MS, then incremented; a restart is scheduled while the counter
is at most MAX_CRASH_RESTARTS, with delay min(2000 * 2^(count-1), 30000). -/
def gatewayExitHandler (s : CrashState) (e : ExitEvent) (tokenPresent : Bool) :
    CrashState × Option Nat :=
  if unexpectedExit e tokenPresent then
    let base := if e.now - s.lastCrashTime > CRASH_WINDOW_MS then 0 else s.crashCount
    let count := base + 1
    let s' : CrashState := ⟨count, e.now⟩
    if count ≤ MAX_CRASH_RESTARTS then
      (s', some (min (2000 * 2 ^ (count - 1)) 30000))
    else
      (s', none)
  else (s, none)

/-- A sequence of unexpected crashes (exit code 1, no signal) at the given
times, folded through the exit listener; returns the final counters and the
restart decision taken at the last crash. -/
def runCrashes (s : CrashState) (times : List Nat) : CrashState × Option Nat :=
  times.foldl (fun acc t => gatewayExitHandler acc.1 ⟨some 1, none, t⟩ true) (s, none)

theorem runCrashes_append (s : CrashState) (ts : List Nat) (t : Nat) :
    runCrashes s (ts ++ [t]) =
      gatewayExitHandler (runCrashes s ts).1 ⟨some 1, none, t⟩ true := by
  unfold runCrashes
  rw [List.foldl_append, List.foldl_cons, List.foldl_nil]

/-- The crash counter value after the rolling-window reset and the increment,
as computed by the exit listener (gateway.js lines 298-302). -/
def rolledCount (s : CrashState) (now : Nat) : Nat :=
  (if now - s.lastCrashTime > CRASH_WINDOW_MS then 0 else s.crashCount) + 1

theorem exitHandler_first (last t : Nat) :
    gatewayExitHandler ⟨0, last⟩ ⟨some 1, none, t⟩ true = (⟨1, t⟩, some 2000) := by
  unfold gatewayExitHandler unexpectedExit
  simp [MAX_CRASH_RESTARTS]

theorem exitHandler_step (c last t : Nat) (h : t - last ≤ CRASH_WINDOW_MS) :
    gatewayExitHandler ⟨c, last⟩ ⟨some 1, none, t⟩ true =
      (⟨c + 1, t⟩,
        if c + 1 ≤ MAX_CRASH_RESTARTS then some (min (2000 * 2 ^ c) 30000)
        else none) := by
  unfold gatewayExitHandler unexpectedExit
  simp [Nat.not_lt.mpr h]
  split <;> simp

/-- C3 — Crash-loop bound and backoff.  First conjunct: on every unexpected
exit the listener increments the window-scoped counter and schedules a
restart exactly while the counter is at most the ceiling 5, with exponential
backoff delay min(2000ms * 2^(count-1), 30000ms).  Remaining conjuncts: for
six unexpected crashes (exit code 1, no stop signal) whose consecutive gaps
stay inside the 5-minute window, the fourth crash still schedules a restart
(16 seconds of backoff) while the sixth schedules none. -/
theorem C3_crash_loop_bound (t1 t2 t3 t4 t5 t6 : Nat)
    (h21 : t2 - t1 ≤ CRASH_WINDOW_MS) (h32 : t3 - t2 ≤ CRASH_WINDOW_MS)
    (h43 : t4 - t3 ≤ CRASH_WINDOW_MS) (h54 : t5 - t4 ≤ CRASH_WINDOW_MS)
    (h65 : t6 - t5 ≤ CRASH_WINDOW_MS) :
    (∀ (s : CrashState) (e : ExitEvent), unexpectedExit e true = true →
        gatewayExitHandler s e true =
          (⟨rolledCount s e.now, e.now⟩,
            if rolledCount s e.now ≤ MAX_CRASH_RESTARTS then
              some (min (2000 * 2 ^ (rolledCount s e.now - 1)) 30000)
            else none)) ∧
    runCrashes ⟨0, 0⟩ [t1, t2, t3, t4] = (⟨4, t4⟩, some 16000) ∧
    runCrashes ⟨0, 0⟩ [t1, t2, t3, t4, t5, t6] = (⟨6, t6⟩, none) := by
  have r1 : runCrashes ⟨0, 0⟩ [t1] = (⟨1, t1⟩, some 2000) := by
    unfold runCrashes
    simp only [List.foldl_cons, List.foldl_nil]
    exact exitHandler_first 0 t1
  have r2 : runCrashes ⟨0, 0⟩ [t1, t2] = (⟨2, t2⟩, some 4000) := by
    rw [show [t1, t2] = [t1] ++ [t2] from rfl, runCrashes_append, r1]
    show gatewayExitHandler ⟨1, t1⟩ ⟨some 1, none, t2⟩ true = _
    rw [exitHandler_step 1 t1 t2 h21]
    rfl
  have r3 : runCrashes ⟨0, 0⟩ [t1, t2, t3] = (⟨3, t3⟩, some 8000) := by
    rw [show [t1, t2, t3] = [t1, t2] ++ [t3] from rfl, runCrashes_append, r2]
    show gatewayExitHandler ⟨2, t2⟩ ⟨some 1, none, t3⟩ true = _
    rw [exitHandler_step 2 t2 t3 h32]
    rfl
  have r4 : runCrashes ⟨0, 0⟩ [t1, t2, t3, t4] = (⟨4, t4⟩, some 16000) := by
    rw [show [t1, t2, t3, t4] = [t1, t2, t3] ++ [t4] from rfl, runCrashes_append, r3]
    show gatewayExitHandler ⟨3, t3⟩ ⟨some 1, none, t4⟩ true = _
    rw [exitHandler_step 3 t3 t4 h43]
    rfl
  have r5 : runCrashes ⟨0, 0⟩ [t1, t2, t3, t4, t5] = (⟨5, t5⟩, some 30000) := by
    rw [show [t1, t2, t3, t4, t5] = [t1, t2, t3, t4] ++ [t5] from rfl,
      runCrashes_append, r4]
    show gatewayExitHandler ⟨4, t4⟩ ⟨some 1, none, t5⟩ true = _
    rw [exitHandler_step 4 t4 t5 h54]
    rfl
  have r6 : runCrashes ⟨0, 0⟩ [t1, t2, t3, t4, t5, t6] = (⟨6, t6⟩, none) := by
    rw [show [t1, t2, t3, t4, t5, t6] = [t1, t2, t3, t4, t5] ++ [t6] from rfl,
      runCrashes_append, r5]
    show gatewayExitHandler ⟨5, t5⟩ ⟨some 1, none, t6⟩ true = _
    rw [exitHandler_step 5 t5 t6 h65]
    rfl
  refine ⟨?_, r4, r6⟩
  intro s e h
  unfold gatewayExitHandler rolledCount
  simp [h]
  split <;> split <;> simp

/-- Witness for C3 at concrete crash times 0s, 10s, 20s, 30s, 40s, 50s (all
gaps far inside the 5-minute window): the fourth crash schedules a 16000ms
restart, the sixth schedules none. -/
theorem C3_crash_loop_bound_witness :
    runCrashes ⟨0, 0⟩ [0, 10000, 20000, 30000] = (⟨4, 30000⟩, some 16000) ∧
      runCrashes ⟨0, 0⟩ [0, 10000, 20000, 30000, 40000, 50000] =
        (⟨6, 50000⟩, none) := by
  have h := C3_crash_loop_bound 0 10000 20000 30000 40000 50000
    (by decide) (by decide) (by decide) (by decide) (by decide)
  exact ⟨h.2.1, h.2.2⟩

/- ----------------------------------------------------------------------------
Gateway start with configuration sync and token verification:
startGateway in src/src/lib/gateway.js lines 61-320.
---------------------------------------------------------------------------- -/

/-- Environment oracle for one invocation of startGateway.  procExists models
gatewayProc being non-null at entry; configured models isConfigured() (the
persisted configuration artifact exists); fileRead models the result of
reading the backend's persisted config file back after the config-sync
commands ran (gateway.js line 227): none means reading or parsing the file
threw, some t means the parse succeeded and config.gateway.auth.token
evaluated to t (with t = none when the field is absent).  The config-set CLI
invocations and the direct-JSON-write fallback only influence the file
contents, so they are folded into this read-back oracle. -/
structure StartEnv where
  configured : Bool
  procExists : Bool
  fileRead : Option (Option String)
deriving Repr, DecidableEq

/-- Possible outcomes of startGateway, in source order: an early return
because a process already exists (line 62), the not-configured throw
(line 63), a throw because reading the config back failed (lines 247-250),
the token-mismatch throw (lines 238-245), or reaching the spawn of the
gateway process (line 267). -/
inductive StartResult where
  | noop
  | notConfiguredErr
  | verifyReadErr
  | mismatchErr (fileToken : Option String)
  | spawned
deriving Repr, DecidableEq

/-- Shallow embedding of startGateway (gateway.js lines 61-320): the early
returns, the read-back verification of the synced token, and the spawn.
Only .spawned reaches childProcess.spawn; every error constructor is a throw
raised before the spawn. -/
def startGateway (token : String) (env : StartEnv) : StartResult :=
  if env.procExists then .noop
  else if !env.configured then .notConfiguredErr
  else
    match env.fileRead with
    | none => .verifyReadErr
    | some configToken =>
      if configToken ≠ some token then .mismatchErr configToken
      else .spawned

/-- Predicate: this startGateway outcome spawned the gateway process. -/
def StartResult.didSpawn : StartResult → Bool
  | .spawned => true
  | _ => false

/-- Predicate: this startGateway outcome is a throw (a failed start
attempt).  The noop early-return is not a failure. -/
def StartResult.isErr : StartResult → Bool
  | .notConfiguredErr => true
  | .verifyReadErr => true
  | .mismatchErr _ => true
  | _ => false

/-- C2 — Gateway token consistency.  For every token and environment:
(1) whenever startGateway reaches the spawn, the token read back from the
backend's persisted config file equals the in-memory token passed in; and
(2) whenever the start sequence runs (no process already exists, deployment
configured) and the read-back token differs from the in-memory token, the
attempt throws a mismatch error and the gateway process is not spawned. -/
theorem C2_token_consistency (token : String) (env : StartEnv) :
    (startGateway token env = .spawned → env.fileRead = some (some token)) ∧
    (∀ ft, env.procExists = false → env.configured = true →
      env.fileRead = some ft → ft ≠ some token →
      startGateway token env = .mismatchErr ft ∧
      (startGateway token env).didSpawn = false ∧
      (startGateway token env).isErr = true) := by
  constructor
  · intro h
    unfold startGateway at h
    split at h
    · exact absurd h (by simp)
    · split at h
      · exact absurd h (by simp)
      · rename_i hread
        cases hfr : env.fileRead with
        | none => rw [hfr] at h; exact absurd h (by simp)
        | some ft =>
          rw [hfr] at h
          simp only at h
          split at h
          · exact absurd h (by simp)
          · rename_i hne
            simp only [ne_eq, not_not] at hne
            rw [hne]
  · intro ft hproc hconf hfr hne
    unfold startGateway
    rw [hproc, hconf, hfr]
    simp [hne, StartResult.didSpawn, StartResult.isErr]

/-- Witness for C2 at a concrete input: the read-back token "other" differs
from the in-memory token "tok", the start throws the mismatch error and does
not spawn. -/
theorem C2_token_consistency_witness :
    startGateway "tok" ⟨true, false, some (some "other")⟩ =
        .mismatchErr (some "other") ∧
      (startGateway "tok" ⟨true, false, some (some "other")⟩).didSpawn = false := by
  have h := (C2_token_consistency "tok" ⟨true, false, some (some "other")⟩).2
    (some "other") rfl rfl rfl (by decide)
  exact ⟨h.1, h.2.1⟩

/- ----------------------------------------------------------------------------
Host-based routing: the catch-all app.use middleware of part_006 lines
2437-2744, the Express route registrations that precede it, the WebSocket
upgrade handler (lines 2842-2899), and the proxy response rewriting for the
dev-server target (lines 2386-2429).
---------------------------------------------------------------------------- -/

/-- HTTP methods relevant to the embedded route table. -/
inductive Method where
  | GET | POST | PUT | PATCH | OTHER
deriving Repr, DecidableEq

/-- An inbound request as seen by the Express layer: method, req.path (the
decoded pathname) and req.hostname (lowercased, no port). -/
structure Request where
  method : Method
  path : String
  host : String
deriving Repr, DecidableEq

/-- The four proxy backends of the wrapper, used both as proxy targets and as
the req._proxyTarget route tag. -/
inductive Target where
  | gateway | dashboard | devServer | prodServer
deriving Repr, DecidableEq

/-- Global state read by the routing middleware: isConfigured() (the persisted
config artifact exists), getClientDomain(), whether the dev / prod server
child processes are non-null, isProdSSR(), whether DEV_DIR/dist exists, and
the outcome of awaiting ensureGatewayRunning (true = resolves, false =
rejects). -/
structure RoutingEnv where
  configured : Bool
  clientDomain : Option String
  devRunning : Bool
  prodSSR : Bool
  prodRunning : Bool
  devDistExists : Bool
  ensureOk : Bool
deriving Repr, DecidableEq

/-- Model of JavaScript String.prototype.startsWith via the character list
(equivalent to String.startsWith, but reduces well in the kernel). -/
def strStartsWith (s p : String) : Bool := p.data.isPrefixOf s.data

/-- Directory constant DEV_DIR from constants.js (workspace site/dev tree). -/
def DEV_DIR : String := "/data/workspace/site/dev"

/-- Directory constant PRODUCTION_DIR from constants.js. -/
def PRODUCTION_DIR : String := "/data/workspace/site/production"

/-- What the routing middleware did with a request: redirect to /setup, fall
through to later-registered routes (the allow-list next()), send one of the
inline llms text bodies, proxy to a backend, answer the dev robots.txt
inline, serve a static directory, or answer 503 because the gateway failed
to start. -/
inductive RouteAction where
  | redirectSetup
  | next
  | sendLlms
  | sendLlmsFull
  | proxyWeb (t : Target)
  | sendRobotsTxt
  | serveStatic (dir : String)
  | error503
deriving Repr, DecidableEq

/-- Observable outcome of the routing middleware for one request: the action
taken, whether res.set("X-Robots-Tag", "noindex, nofollow") ran, the
req._proxyTarget tag attached for the proxy event handlers, and whether
ensureGatewayRunning was awaited before acting. -/
structure MwResult where
  action : RouteAction
  xRobots : Bool
  tag : Option Target
  ensureCalled : Bool
deriving Repr, DecidableEq

/-- The fallthrough tail of the routing middleware (part_006 lines
2730-2743): when configured, await ensureGatewayRunning and answer 503 on
failure; then proxy to the gateway. -/
def gatewayFallback (env : RoutingEnv) : MwResult :=
  if env.configured then
    if env.ensureOk then ⟨.proxyWeb .gateway, false, none, true⟩
    else ⟨.error503, false, none, true⟩
  else ⟨.proxyWeb .gateway, false, none, false⟩

/-- Shallow embedding of the catch-all routing middleware, part_006 lines
2437-2744, with the source's branch order: the not-configured redirect, the
allow-list next(), production (apex and www) routing with the llms text
special cases, dev-subdomain routing with its robots.txt answer and the
X-Robots-Tag header set for every dev response, gerald-subdomain routing
(gateway for /openclaw paths after awaiting ensureGatewayRunning, dashboard
otherwise), and the gateway fallback for all other hosts. -/
def routingMiddleware (req : Request) (env : RoutingEnv) : MwResult :=
  if !env.configured && !strStartsWith req.path "/setup" then
    ⟨.redirectSetup, false, none, false⟩
  else
    match env.clientDomain with
    | none => gatewayFallback env
    | some d =>
      if req.path = "/api/webhook/github" ∨ req.path = "/api/rebuild" ∨
          req.path = "/status" then
        ⟨.next, false, none, false⟩
      else if req.host = d ∨ req.host = "www." ++ d then
        if req.path = "/llms.txt" then ⟨.sendLlms, false, none, false⟩
        else if req.path = "/llms-full.txt" then ⟨.sendLlmsFull, false, none, false⟩
        else if env.prodSSR && env.prodRunning then
          ⟨.proxyWeb .prodServer, false, some .prodServer, false⟩
        else ⟨.serveStatic PRODUCTION_DIR, false, none, false⟩
      else if req.host = "dev." ++ d then
        if req.path = "/robots.txt" then ⟨.sendRobotsTxt, true, none, false⟩
        else if env.devRunning then
          ⟨.proxyWeb .devServer, true, some .devServer, false⟩
        else
          ⟨.serveStatic (if env.devDistExists then DEV_DIR ++ "/dist" else DEV_DIR),
            true, none, false⟩
      else if req.host = "gerald." ++ d then
        if strStartsWith req.path "/openclaw" then
          if env.configured then
            if env.ensureOk then ⟨.proxyWeb .gateway, false, none, true⟩
            else ⟨.error503, false, none, true⟩
          else ⟨.proxyWeb .gateway, false, none, false⟩
        else ⟨.proxyWeb .dashboard, false, some .dashboard, false⟩
      else gatewayFallback env

/-- Which handler ends up answering a request.  The Express app of part_006
dispatches to registered routes in registration order; the catch-all routing
middleware is registered after all the routes named here.  Only the
registrations that can match the three allow-listed paths are modelled:
every omitted registration in part_006 is for a literal path (under /setup,
/api/dashboard, /api/site, /api/rebuild-dashboard, /api/rebuild-workspace,
/api/health and similar) that is distinct from the three paths of interest,
so omitting it does not change where those three paths land. -/
inductive DispatchResult where
  | healthzRoute
  | diagnosticRoute
  | statusRoute
  | rebuildRoute
  | webhookRoute
  | middleware (m : MwResult)
deriving Repr, DecidableEq

/-- Express dispatch for the embedded route table, in the registration order
of part_006: app.get("/setup/healthz") line 125, app.get("/setup/diagnostic")
line 141, app.get("/status") line 225, app.post("/api/rebuild") line 2046,
app.post("/api/webhook/github") line 2222, then the catch-all app.use
line 2437. -/
def appDispatch (req : Request) (env : RoutingEnv) : DispatchResult :=
  if req.method = .GET ∧ req.path = "/setup/healthz" then .healthzRoute
  else if req.method = .GET ∧ req.path = "/setup/diagnostic" then .diagnosticRoute
  else if req.method = .GET ∧ req.path = "/status" then .statusRoute
  else if req.method = .POST ∧ req.path = "/api/rebuild" then .rebuildRoute
  else if req.method = .POST ∧ req.path = "/api/webhook/github" then .webhookRoute
  else .middleware (routingMiddleware req env)

/-- What the upgrade handler did with a WebSocket upgrade: destroy the raw
socket, or proxy the upgrade to a backend. -/
inductive UpgradeAction where
  | destroy
  | proxyWs (t : Target)
deriving Repr, DecidableEq

/-- Observable outcome of the upgrade handler: whether ensureGatewayRunning
was awaited, and the action taken on the socket. -/
structure UpgradeResult where
  ensureCalled : Bool
  action : UpgradeAction
deriving Repr, DecidableEq

/-- The gateway-or-dashboard tail of the upgrade handler (part_006 lines
2866-2898): paths under /openclaw and the root path go to the gateway after
awaiting ensureGatewayRunning — destroying the socket when that await
rejects — and every other path is proxied to the dashboard.  On the gateway
path the token is also appended as a query parameter and sent as a bearer
header; that rewriting does not affect which action is taken, so it is not
modelled. -/
def wsGatewayOrDashboard (path : String) (env : RoutingEnv) : UpgradeResult :=
  if strStartsWith path "/openclaw" || path = "/" then
    if env.ensureOk then ⟨true, .proxyWs .gateway⟩ else ⟨true, .destroy⟩
  else ⟨false, .proxyWs .dashboard⟩

/-- Shallow embedding of the server.on("upgrade") handler, part_006 lines
2842-2899: destroy when not configured; dev-subdomain upgrades go to the dev
server only while it runs; any other host that is not the gerald subdomain
is destroyed when a client domain is set; the rest is decided by the path. -/
def upgradeHandler (host : String) (path : String) (env : RoutingEnv) :
    UpgradeResult :=
  if !env.configured then ⟨false, .destroy⟩
  else
    match env.clientDomain with
    | some d =>
      if host = "dev." ++ d && env.devRunning then ⟨false, .proxyWs .devServer⟩
      else if host ≠ "gerald." ++ d then ⟨false, .destroy⟩
      else wsGatewayOrDashboard path env
    | none => wsGatewayOrDashboard path env

/-- First-occurrence search used to model the JavaScript string operations
body.includes(pat) and body.replace(pat, repl) (which replaces only the
first occurrence): scanning left to right, split the haystack around the
first occurrence of the pattern. -/
def findSplit : List Char → List Char → Option (List Char × List Char)
  | [], pat => if pat.isEmpty then some ([], []) else none
  | c :: rest, pat =>
    if pat.isPrefixOf (c :: rest) then some ([], (c :: rest).drop pat.length)
    else
      match findSplit rest pat with
      | some (a, b) => some (c :: a, b)
      | none => none

/-- Model of JavaScript String.prototype.includes. -/
def containsSub (hay pat : List Char) : Bool := (findSplit hay pat).isSome

theorem findSplit_eq (hay pat a b : List Char)
    (h : findSplit hay pat = some (a, b)) : hay = a ++ pat ++ b := by
  induction hay generalizing a b with
  | nil =>
    unfold findSplit at h
    split at h
    · rename_i hp
      rw [List.isEmpty_iff] at hp
      simp only [Option.some.injEq, Prod.mk.injEq] at h
      simp [hp, ← h.1, ← h.2]
    · exact absurd h (by simp)
  | cons c rest ih =>
    unfold findSplit at h
    split at h
    · rename_i hp
      have hpre : pat <+: c :: rest := by
        exact (List.isPrefixOf_iff_prefix).mp hp
      obtain ⟨t, ht⟩ := hpre
      simp only [Option.some.injEq, Prod.mk.injEq] at h
      have hdrop : (c :: rest).drop pat.length = t := by
        rw [← ht, List.drop_left]
      rw [← h.1, ← h.2, hdrop]
      simp [← ht]
    · rename_i hp
      rcases hfs : findSplit rest pat with _ | ⟨a', b'⟩
      · rw [hfs] at h; exact absurd h (by simp)
      · rw [hfs] at h
        simp only [Option.some.injEq, Prod.mk.injEq] at h
        have := ih a' b' hfs
        rw [← h.1, ← h.2]
        simp [this]

theorem containsSub_of_append (pat : List Char) (hne : pat ≠ [])
    (a b : List Char) : containsSub (a ++ pat ++ b) pat = true := by
  induction a with
  | nil =>
    cases pat with
    | nil => exact absurd rfl hne
    | cons p ps =>
      have hpre : (p :: ps).isPrefixOf (p :: (ps ++ b)) = true :=
        (List.isPrefixOf_iff_prefix).mpr ⟨b, by simp⟩
      unfold containsSub
      rw [show ([] : List Char) ++ (p :: ps) ++ b = p :: (ps ++ b) by simp]
      rw [findSplit]
      rw [if_pos hpre]
      simp
  | cons c a' ih =>
    unfold containsSub
    rw [show (c :: a') ++ pat ++ b = c :: (a' ++ pat ++ b) by simp]
    rw [findSplit]
    split
    · simp
    · unfold containsSub at ih
      rcases hfs : findSplit (a' ++ pat ++ b) pat with _ | ⟨x, y⟩
      · rw [hfs] at ih; simp at ih
      · simp

/-- The pattern body.includes checks for before injecting the meta tag
(part_006 line 2412). -/
def robotsMarker : List Char := "name=\"robots\"".data

/-- The head-opening tag that the injection replaces (part_006 line 2413). -/
def headTag : List Char := "<head>".data

/-- The text appended after the head tag by the replacement at part_006
lines 2413-2416 (the replacement string is the head tag followed by this). -/
def metaRest : List Char :=
  "\n  <meta name=\"robots\" content=\"noindex, nofollow\">".data

/-- The content-type fragment tested at part_006 line 2394. -/
def htmlMarker : List Char := "text/html".data

/-- UTF-8 byte length of a character list, modelling Buffer.byteLength on
the corresponding string. -/
def utf8Len (l : List Char) : Nat := (l.map Char.utf8Size).sum

/-- The body patch performed by the monkey-patched res.end for dev-server
HTML responses (part_006 lines 2409-2417): inject the robots meta tag right
after the first head-opening tag, unless a robots meta marker is already
present or no head tag exists. -/
def injectRobotsMeta (body : List Char) : List Char :=
  if containsSub body robotsMarker then body
  else
    match findSplit body headTag with
    | some (pre, post) => pre ++ headTag ++ metaRest ++ post
    | none => body

/-- Input to the proxy.on("proxyRes") handler: the req._proxyTarget tag of
the request being answered, the backend's content-type header (empty string
when absent), and the full response body the backend streams. -/
structure ProxyResIn where
  tag : Option Target
  contentType : String
  body : List Char
deriving Repr, DecidableEq

/-- Observable outcome of the proxyRes handler: whether the x-robots-tag
header was forced onto the response, the body finally emitted to the client,
and the Content-Length recomputed by the rewrite (none when the handler left
the headers alone and the body streamed through untouched). -/
structure ProxyResOut where
  xRobotsSet : Bool
  body : List Char
  contentLength : Option Nat
deriving Repr, DecidableEq

/-- Shallow embedding of proxy.on("proxyRes") (part_006 lines 2386-2429):
only requests tagged dev-server are touched; those always get the
x-robots-tag header, and when the backend declared an HTML content type the
full body is buffered, the meta tag injected, and Content-Length recomputed
as the byte length of the patched body. -/
def proxyResHandler (i : ProxyResIn) : ProxyResOut :=
  if i.tag = some .devServer then
    if containsSub i.contentType.data htmlMarker then
      let b := injectRobotsMeta i.body
      ⟨true, b, some (utf8Len b)⟩
    else ⟨true, i.body, none⟩
  else ⟨false, i.body, none⟩

/-- C5 — Allow-list routing tie-break.  For every hostname and every global
state (configured or not, any client domain, any process states), a GET of
/status, a POST of /api/rebuild and a POST of /api/webhook/github are
dispatched to their dedicated route handlers, which are registered before
the catch-all routing middleware — so they are neither redirected to /setup
nor proxied by the hostname rules. -/
theorem C5_allow_list_bypass (host : String) (env : RoutingEnv) :
    appDispatch ⟨.GET, "/status", host⟩ env = .statusRoute ∧
    appDispatch ⟨.POST, "/api/rebuild", host⟩ env = .rebuildRoute ∧
    appDispatch ⟨.POST, "/api/webhook/github", host⟩ env = .webhookRoute := by
  refine ⟨?_, ?_, ?_⟩ <;> simp [appDispatch]

/-- C6 — WebSocket gateway start-before-proxy.  For an upgrade on host
gerald.d with a path under /openclaw while the deployment is configured:
ensureGatewayRunning is awaited before anything touches the backend; when
that await rejects the raw socket is destroyed (no HTTP error is written),
and when it resolves the upgrade is proxied to the gateway. -/
theorem C6_ws_start_before_proxy (env : RoutingEnv) (d path : String)
    (hconf : env.configured = true) (hcd : env.clientDomain = some d)
    (hpath : strStartsWith path "/openclaw" = true) :
    (upgradeHandler ("gerald." ++ d) path env).ensureCalled = true ∧
    (env.ensureOk = false →
      (upgradeHandler ("gerald." ++ d) path env).action = .destroy) ∧
    (env.ensureOk = true →
      (upgradeHandler ("gerald." ++ d) path env).action = .proxyWs .gateway) := by
  have hne : ("gerald." ++ d : String) ≠ "dev." ++ d := by
    intro h
    have hlen := congrArg String.length h
    simp only [String.length_append] at hlen
    rw [show ("gerald." : String).length = 7 from rfl,
      show ("dev." : String).length = 4 from rfl] at hlen
    omega
  unfold upgradeHandler wsGatewayOrDashboard
  rw [hconf, hcd]
  simp only [Bool.not_true, Bool.false_eq_true, if_false]
  rw [if_neg (by simp [hne])]
  rw [if_neg (by simp)]
  rw [if_pos (by simp [hpath])]
  cases hok : env.ensureOk <;> simp

/-- Witness for C6 at a concrete input: host gerald.example.com, path
/openclaw/chat, configured deployment whose gateway start fails — the
handler awaited the start and destroyed the socket. -/
theorem C6_ws_start_before_proxy_witness :
    (upgradeHandler "gerald.example.com" "/openclaw/chat"
        ⟨true, some "example.com", false, false, false, false, false⟩).ensureCalled
        = true ∧
    (upgradeHandler "gerald.example.com" "/openclaw/chat"
        ⟨true, some "example.com", false, false, false, false, false⟩).action
        = .destroy := by
  have h := C6_ws_start_before_proxy
    ⟨true, some "example.com", false, false, false, false, false⟩
    "example.com" "/openclaw/chat" rfl rfl (by decide)
  exact ⟨h.1, h.2.1 rfl⟩

theorem dev_host_ne_apex (d : String) : "dev." ++ d ≠ d := by
  intro h
  have hlen := congrArg String.length h
  simp only [String.length_append] at hlen
  rw [show ("dev." : String).length = 4 from rfl] at hlen
  omega

theorem dev_host_ne_www (d : String) : "dev." ++ d ≠ "www." ++ d := by
  intro h
  have hd := congrArg String.data h
  simp only [String.data_append] at hd
  simp at hd

/-- C7 — Dev-server response rewriting applies only to dev-server-targeted
responses.  First conjunct: every response the routing middleware produces
for the dev subdomain (the robots.txt answer, the proxied dev-server case,
and the static fallback while the dev server is not running) carries the
X-Robots-Tag noindex header.  Second conjunct: the proxyRes handler leaves
responses of every other route tag untouched.  Third conjunct: every
dev-server-tagged proxied response gets the x-robots-tag header.  Fourth
conjunct: for a dev-server-tagged HTML response whose body has a head tag,
the emitted body contains a robots meta marker (pre-existing or injected)
and Content-Length is recomputed as the byte length of the emitted body. -/
theorem C7_dev_noindex_rewrite :
    (∀ (req : Request) (env : RoutingEnv) (d : String),
        env.configured = true → env.clientDomain = some d →
        req.host = "dev." ++ d →
        req.path ≠ "/api/webhook/github" → req.path ≠ "/api/rebuild" →
        req.path ≠ "/status" →
        (routingMiddleware req env).xRobots = true) ∧
    (∀ i : ProxyResIn, i.tag ≠ some .devServer →
        proxyResHandler i = ⟨false, i.body, none⟩) ∧
    (∀ i : ProxyResIn, i.tag = some .devServer →
        (proxyResHandler i).xRobotsSet = true) ∧
    (∀ i : ProxyResIn, i.tag = some .devServer →
        containsSub i.contentType.data htmlMarker = true →
        containsSub i.body headTag = true →
        containsSub (proxyResHandler i).body robotsMarker = true ∧
        (proxyResHandler i).contentLength =
          some (utf8Len (proxyResHandler i).body)) := by
  refine ⟨?_, ?_, ?_, ?_⟩
  · intro req env d hconf hcd hdev hp1 hp2 hp3
    have hd : req.host ≠ d := by rw [hdev]; exact dev_host_ne_apex d
    have hw : req.host ≠ "www." ++ d := by rw [hdev]; exact dev_host_ne_www d
    unfold routingMiddleware
    rw [hconf, hcd]
    simp only [Bool.not_true, Bool.false_and, Bool.false_eq_true, if_false]
    rw [if_neg (by simp [hp1, hp2, hp3])]
    rw [if_neg (by simp [hd, hw])]
    rw [if_pos hdev]
    split
    · rfl
    · split <;> rfl
  · intro i h
    unfold proxyResHandler
    rw [if_neg h]
  · intro i h
    unfold proxyResHandler
    rw [if_pos h]
    split <;> rfl
  · intro i htag hct hhead
    unfold proxyResHandler
    rw [if_pos htag, if_pos hct]
    simp only
    refine ⟨?_, by trivial⟩
    unfold injectRobotsMeta
    rcases hc : containsSub i.body robotsMarker with _ | _
    · rw [if_neg (by simp [hc])]
      have hsome : (findSplit i.body headTag).isSome = true := hhead
      rcases hfs : findSplit i.body headTag with _ | ⟨pre, post⟩
      · rw [hfs] at hsome; simp at hsome
      · simp only [hfs]
        have hm : metaRest =
            "\n  <meta ".data ++ robotsMarker ++
              " content=\"noindex, nofollow\">".data := by decide
        rw [hm]
        simpa [List.append_assoc] using
          containsSub_of_append robotsMarker (by decide)
            (pre ++ headTag ++ "\n  <meta ".data)
            (" content=\"noindex, nofollow\">".data ++ post)
    · rw [if_pos (by simp [hc])]
      exact hc

/-- Witness for C7 at concrete inputs: a request to dev.example.com on a
configured deployment whose dev server is down gets the noindex header, and
a dev-server-tagged HTML response body gains the robots meta marker with a
recomputed Content-Length. -/
theorem C7_dev_noindex_rewrite_witness :
    (routingMiddleware ⟨.GET, "/", "dev.example.com"⟩
        ⟨true, some "example.com", false, false, false, false, true⟩).xRobots
      = true ∧
    containsSub
        (proxyResHandler
          ⟨some .devServer, "text/html",
            "<html><head></head></html>".data⟩).body robotsMarker = true := by
  refine ⟨C7_dev_noindex_rewrite.1 ⟨.GET, "/", "dev.example.com"⟩
    ⟨true, some "example.com", false, false, false, false, true⟩ "example.com"
    rfl rfl (by decide) (by decide) (by decide) (by decide), ?_⟩
  exact (C7_dev_noindex_rewrite.2.2.2
    ⟨some .devServer, "text/html", "<html><head></head></html>".data⟩
    rfl (by decide) (by decide)).1

/- ----------------------------------------------------------------------------
Body re-injection: the proxy.on("proxyReq") handler of part_006 lines
2366-2383, which re-serializes the JSON body parsed by express.json() onto
the outbound request.
---------------------------------------------------------------------------- -/

/-- JSON values as produced by the express.json() body parser. -/
inductive Json where
  | null
  | bool (b : Bool)
  | num (n : Int)
  | str (s : String)
  | arr (elems : List Json)
  | obj (fields : List (String × Json))

/-- Lower-case hexadecimal digit. -/
def hexDigit (n : Nat) : Char :=
  if n < 10 then Char.ofNat (48 + n) else Char.ofNat (87 + n)

/-- Four-digit hexadecimal rendering used by the JSON control-character
escape. -/
def hex4 (n : Nat) : List Char :=
  [hexDigit (n / 4096 % 16), hexDigit (n / 256 % 16),
    hexDigit (n / 16 % 16), hexDigit (n % 16)]

/-- JSON.stringify escaping of one string character. -/
def escChar (c : Char) : List Char :=
  if c = '"' then ['\\', '"']
  else if c = '\\' then ['\\', '\\']
  else if c = '\n' then ['\\', 'n']
  else if c = '\r' then ['\\', 'r']
  else if c = '\t' then ['\\', 't']
  else if c = Char.ofNat 8 then ['\\', 'b']
  else if c = Char.ofNat 12 then ['\\', 'f']
  else if c.toNat < 32 then '\\' :: 'u' :: hex4 c.toNat
  else [c]

/-- JSON.stringify rendering of a string literal. -/
def quoteStr (s : String) : List Char :=
  '"' :: (s.data.map escChar).flatten ++ ['"']

/-- Opening curly brace character. -/
def lcurly : Char := Char.ofNat 123

/-- Closing curly brace character. -/
def rcurly : Char := Char.ofNat 125

mutual

/-- Model of JSON.stringify(v) with no spacing argument, as invoked at
part_006 line 2378: compact separators, insertion-ordered object fields. -/
def stringify : Json → List Char
  | .null => "null".data
  | .bool true => "true".data
  | .bool false => "false".data
  | .num n => (toString n).data
  | .str s => quoteStr s
  | .arr es => '[' :: stringifyArr es ++ [']']
  | .obj fs => lcurly :: stringifyObj fs ++ [rcurly]

/-- Comma-joined array elements of JSON.stringify. -/
def stringifyArr : List Json → List Char
  | [] => []
  | [e] => stringify e
  | e :: es => stringify e ++ ',' :: stringifyArr es

/-- Comma-joined key-value pairs of JSON.stringify. -/
def stringifyObj : List (String × Json) → List Char
  | [] => []
  | [(k, v)] => quoteStr k ++ ':' :: stringify v
  | (k, v) :: fs => quoteStr k ++ ':' :: stringify v ++ ',' :: stringifyObj fs

end

/-- Model of Object.keys(v).length for parsed bodies: objects enumerate
their fields, arrays their indices, boxed strings their character indices;
other primitives have no own enumerable keys. -/
def jsKeyCount : Json → Nat
  | .obj fs => fs.length
  | .arr es => es.length
  | .str s => s.length
  | _ => 0

/-- Input to proxy.on("proxyReq"): the request method, whether the request
carries the dashboard route tag (req._proxyTarget === "dashboard"), and
req.body as left by express.json() (none models a missing/falsy body). -/
structure ProxyReqIn where
  method : Method
  tagDashboard : Bool
  body : Option Json

/-- Observable outcome of the proxyReq handler: whether the gateway bearer
token was injected, the Content-Type and Content-Length headers it set on
the outbound request, and the bytes it wrote onto the outbound request
(none when nothing was written). -/
structure ProxyReqOut where
  authInjected : Bool
  contentType : Option String
  contentLength : Option Nat
  written : Option (List Char)
deriving Repr, DecidableEq

/-- Shallow embedding of proxy.on("proxyReq") (part_006 lines 2366-2383):
inject the bearer token except for dashboard-tagged requests; then, when
req.body is truthy and Object.keys(req.body).length > 0, re-serialize the
parsed body with JSON.stringify, set Content-Type application/json and
Content-Length to the byte length of the serialization, and write it onto
the outbound request. -/
def proxyReqHandler (i : ProxyReqIn) : ProxyReqOut :=
  let auth := !i.tagDashboard
  match i.body with
  | some v =>
    if jsKeyCount v > 0 then
      ⟨auth, some "application/json", some (utf8Len (stringify v)),
        some (stringify v)⟩
    else ⟨auth, none, none, none⟩
  | none => ⟨auth, none, none, none⟩

/-- C8 counterexample: a proxied POST whose JSON body was parsed and
consumed by the inbound middleware — to the empty object — is not
re-serialized: the handler writes nothing onto the outbound request and
sets neither Content-Type nor Content-Length, because the source guards the
re-injection with Object.keys(req.body).length > 0.  This refutes the claim
as stated at a concrete input. -/
theorem C8_body_reinjection_counterexample :
    (proxyReqHandler ⟨.POST, false, some (.obj [])⟩).written = none ∧
    (proxyReqHandler ⟨.POST, false, some (.obj [])⟩).contentType = none ∧
    (proxyReqHandler ⟨.POST, false, some (.obj [])⟩).contentLength = none :=
  ⟨rfl, rfl, rfl⟩

/-- C8 amended — Body re-injection round-trip for non-empty parsed bodies.
For every proxied request whose parsed JSON body has at least one own
enumerable key (in particular every POST/PUT/PATCH with a non-empty JSON
object body), the handler writes exactly the JSON re-serialization of the
parsed body onto the outbound request, with Content-Type application/json
and Content-Length equal to the byte length of the re-serialized body — so
the backend receives precisely the serialization of the value the inbound
layer parsed from the client's body. -/
theorem C8_body_reinjection_amended (i : ProxyReqIn) (v : Json)
    (hb : i.body = some v) (hk : jsKeyCount v > 0) :
    proxyReqHandler i =
      ⟨!i.tagDashboard, some "application/json",
        some (utf8Len (stringify v)), some (stringify v)⟩ := by
  unfold proxyReqHandler
  rw [hb]
  simp only [if_pos hk]

/-- Witness for the amended C8 at a concrete input: a POST with parsed body
containing the single field a mapped to 1. -/
theorem C8_body_reinjection_amended_witness :
    proxyReqHandler ⟨.POST, false, some (.obj [("a", .num 1)])⟩ =
      ⟨true, some "application/json",
        some (utf8Len (stringify (.obj [("a", .num 1)]))),
        some (stringify (.obj [("a", .num 1)]))⟩ :=
  C8_body_reinjection_amended ⟨.POST, false, some (.obj [("a", .num 1)])⟩
    (.obj [("a", .num 1)]) rfl (by decide)

/- ----------------------------------------------------------------------------
Static file serving: serveStaticSite in part_007 lines 8-72.
---------------------------------------------------------------------------- -/

/-- Split a character list at slashes. -/
def splitSlash : List Char → List (List Char)
  | [] => [[]]
  | c :: cs =>
    if c = '/' then [] :: splitSlash cs
    else
      match splitSlash cs with
      | h :: t => (c :: h) :: t
      | [] => [[c]]

/-- Path segments of a POSIX path: slash-separated pieces with empty pieces
and single dots discarded, as done by path normalization. -/
def pathSegs (p : String) : List (List Char) :=
  (splitSlash p.data).filter (fun s => !s.isEmpty && s ≠ ['.'])

/-- Resolve parent-directory segments against an absolute base: a
double-dot segment removes the previous segment (and is dropped at the
root), every other segment is appended. -/
def normSegs (segs : List (List Char)) : List (List Char) :=
  segs.foldl
    (fun acc s => if s = ['.', '.'] then acc.dropLast else acc ++ [s]) []

/-- Render resolved segments as an absolute path. -/
def joinSegsAbs (segs : List (List Char)) : List Char :=
  match segs with
  | [] => ['/']
  | _ => segs.foldl (fun acc s => acc ++ '/' :: s) []

/-- Model of Node's path.join(dir, p) for an absolute, slash-normalized dir
with no trailing slash (which is how serveStaticSite is called): the
concatenation is normalized, resolving dot and double-dot segments, with
double-dot clamped at the filesystem root. -/
def pathJoin (dir p : String) : List Char :=
  joinSegsAbs (normSegs (pathSegs dir ++ pathSegs p))

/-- Model of path.join(p, seg) for an already-resolved absolute path p and a
plain relative segment. -/
def joinSeg (p s : List Char) : List Char :=
  if p = ['/'] then '/' :: s else p ++ '/' :: s

/-- Filesystem oracle for serveStaticSite: the set of paths for which the
existence checks of the source succeed (fs.existsSync, together with
statSync(..).isFile() where the source checks it). -/
structure Fs where
  files : List (List Char)

/-- Existence check against the filesystem oracle. -/
def fileExists (fs : Fs) (p : List Char) : Bool := fs.files.contains p

/-- The placeholder page shipped with the wrapper itself,
path.join(process.cwd(), "src", "public", "placeholder.html") with the
container working directory abstracted as /app (part_007 lines 47-55). -/
def placeholderPath : List Char := "/app/src/public/placeholder.html".data

/-- Model of JavaScript String.prototype.endsWith. -/
def strEndsWith (s p : String) : Bool := p.data.isSuffixOf s.data

/-- Last slash-separated segment of a path. -/
def lastSegment (p : List Char) : List Char := (splitSlash p).getLastD []

/-- Model of path.extname: the suffix of the final segment from its last
dot, empty when there is no dot or when the only dot is leading. -/
def extnameCh (p : List Char) : List Char :=
  let seg := lastSegment p
  let pre := seg.reverse.takeWhile (fun c => c ≠ '.')
  if pre.length = seg.length then []
  else if pre.length + 1 = seg.length then []
  else '.' :: pre.reverse

/-- The API-path test of the SPA catch-all (part_007 line 63). -/
def isApiPath (reqPath : String) : Bool :=
  strStartsWith reqPath "/api/" || strStartsWith reqPath "/_astro/"

/-- The static-asset test of the SPA catch-all (part_007 line 64). -/
def isStaticAsset (reqPath : String) : Bool :=
  !(extnameCh reqPath.data).isEmpty && !strEndsWith reqPath ".html"

/-- How serveStaticSite answered: the 403 guard, a file sent with status
200, the 404.html page sent with status 404, the placeholder page, or the
plain-text 404. -/
inductive StaticAction where
  | forbidden
  | sendFile (p : List Char)
  | sendNotFoundPage (p : List Char)
  | sendPlaceholder (p : List Char)
  | notFoundText
deriving Repr, DecidableEq

/-- The file a StaticAction transfers with res.sendFile, if any. -/
def servedFile : StaticAction → Option (List Char)
  | .sendFile p => some p
  | .sendNotFoundPage p => some p
  | .sendPlaceholder p => some p
  | _ => none

/-- The body of serveStaticSite after the effective request path has been
chosen (part_007 lines 10-71): join it onto the root, refuse with 403 when
the joined path does not start with the root string, then try the file
itself, a directory index, an .html sibling, the site's 404 page, the
wrapper placeholder, and the SPA catch-all index, in source order.  The SPA
tests are made on the original decoded request path, as in the source. -/
def serveStaticCore (dir eff reqPath : String) (fs : Fs) : StaticAction :=
  let filePath := pathJoin dir eff
  if !(dir.data.isPrefixOf filePath) then .forbidden
  else if fileExists fs filePath then .sendFile filePath
  else if fileExists fs (joinSeg filePath "index.html".data) then
    .sendFile (joinSeg filePath "index.html".data)
  else if fileExists fs (filePath ++ ".html".data) then
    .sendFile (filePath ++ ".html".data)
  else if fileExists fs (joinSeg dir.data "404.html".data) then
    .sendNotFoundPage (joinSeg dir.data "404.html".data)
  else if fileExists fs placeholderPath then .sendPlaceholder placeholderPath
  else if fileExists fs (joinSeg dir.data "index.html".data)
      && !isApiPath reqPath && !isStaticAsset reqPath then
    .sendFile (joinSeg dir.data "index.html".data)
  else .notFoundText

/-- Shallow embedding of serveStaticSite (part_007 lines 8-72): the request
path "/" is served as index.html, every other decoded request path is used
as-is. -/
def serveStaticSite (dir reqPath : String) (fs : Fs) : StaticAction :=
  serveStaticCore dir (if reqPath = "/" then "index.html" else reqPath)
    reqPath fs

/-- Whether a resolved path lies inside the directory dir (equals it or
sits below it past a slash boundary). -/
def isWithinDir (dir : String) (p : List Char) : Bool :=
  p = dir.data || (dir.data ++ ['/']).isPrefixOf p

/-- C9 counterexample: with root /data/production, the decoded request path
/../production-evil/secret.html joins and resolves to
/data/production-evil/secret.html — a location outside the root directory —
yet serveStaticSite does not answer 403: the string-prefix guard passes
because the sibling directory name extends the root's name, and the file is
sent.  This refutes the claim as stated at a concrete input. -/
theorem C9_path_containment_counterexample :
    serveStaticSite "/data/production" "/../production-evil/secret.html"
        ⟨["/data/production-evil/secret.html".data]⟩ =
      .sendFile "/data/production-evil/secret.html".data ∧
    isWithinDir "/data/production"
      "/data/production-evil/secret.html".data = false := by
  constructor
  · decide
  · decide

theorem isPrefixOf_append_right (d p x : List Char)
    (h : d.isPrefixOf p = true) : d.isPrefixOf (p ++ x) = true := by
  rw [List.isPrefixOf_iff_prefix] at h ⊢
  exact h.trans (List.prefix_append p x)

theorem isPrefixOf_joinSeg (d p s : List Char)
    (h : d.isPrefixOf p = true) : d.isPrefixOf (joinSeg p s) = true := by
  unfold joinSeg
  split
  · rename_i hp
    subst hp
    obtain ⟨t, ht⟩ := (List.isPrefixOf_iff_prefix).mp h
    cases d with
    | nil => simp [List.isPrefixOf]
    | cons c d' =>
      cases d' with
      | nil =>
        simp only [List.cons_append, List.nil_append, List.cons.injEq] at ht
        rw [List.isPrefixOf_iff_prefix]
        exact ⟨s, by simp [ht.1]⟩
      | cons c2 d'' => simp at ht
  · rw [List.isPrefixOf_iff_prefix] at h ⊢
    exact h.trans (List.prefix_append p ('/' :: s))

theorem isPrefixOf_self (d : List Char) : d.isPrefixOf d = true := by
  rw [List.isPrefixOf_iff_prefix]

theorem serveStaticCore_served (dir eff reqPath : String) (fs : Fs)
    (p : List Char)
    (hp : servedFile (serveStaticCore dir eff reqPath fs) = some p) :
    dir.data.isPrefixOf p = true ∨ p = placeholderPath := by
  simp only [serveStaticCore] at hp
  split at hp
  · simp [servedFile] at hp
  · rename_i hpref
    have hpre : dir.data.isPrefixOf (pathJoin dir eff) = true := by
      simpa using hpref
    split at hp
    · simp only [servedFile, Option.some.injEq] at hp
      exact .inl (hp ▸ hpre)
    · split at hp
      · simp only [servedFile, Option.some.injEq] at hp
        exact .inl (hp ▸ isPrefixOf_joinSeg _ _ _ hpre)
      · split at hp
        · simp only [servedFile, Option.some.injEq] at hp
          exact .inl (hp ▸ isPrefixOf_append_right _ _ _ hpre)
        · split at hp
          · simp only [servedFile, Option.some.injEq] at hp
            exact .inl (hp ▸ isPrefixOf_joinSeg _ _ _ (isPrefixOf_self _))
          · split at hp
            · simp only [servedFile, Option.some.injEq] at hp
              exact .inr hp.symm
            · split at hp
              · simp only [servedFile, Option.some.injEq] at hp
                exact .inl (hp ▸ isPrefixOf_joinSeg _ _ _ (isPrefixOf_self _))
              · simp [servedFile] at hp

/-- C9 amended — Static serving path containment up to a string-prefix
guard.  serveStaticSite answers 403 Forbidden exactly when the decoded
request path joined to the static root does not have the root as a string
prefix; consequently sibling locations whose name extends the root's name
remain reachable through dot-dot traversal, and every file it sends either
has the root as a string prefix of its resolved path or is the wrapper's
fixed placeholder page. -/
theorem C9_path_containment_amended (dir reqPath : String) (fs : Fs) :
    (dir.data.isPrefixOf
        (pathJoin dir (if reqPath = "/" then "index.html" else reqPath))
          = false →
      serveStaticSite dir reqPath fs = .forbidden) ∧
    (∀ p, servedFile (serveStaticSite dir reqPath fs) = some p →
      dir.data.isPrefixOf p = true ∨ p = placeholderPath) := by
  constructor
  · intro h
    unfold serveStaticSite serveStaticCore
    rw [if_pos (by simp [h])]
  · intro p hp
    exact serveStaticCore_served dir
      (if reqPath = "/" then "index.html" else reqPath) reqPath fs p hp

/-- Witness for the amended C9 at concrete inputs: a traversal that leaves
even the string prefix (three dot-dots from /data/production) is answered
403, and a normal index request is served from inside the root. -/
theorem C9_path_containment_amended_witness :
    serveStaticSite "/data/production" "/../../etc/passwd" ⟨[]⟩ =
        .forbidden ∧
      ("/data/production".data.isPrefixOf
          "/data/production/index.html".data = true ∨
        "/data/production/index.html".data = placeholderPath) := by
  constructor
  · exact (C9_path_containment_amended "/data/production" "/../../etc/passwd"
      ⟨[]⟩).1 (by decide)
  · exact (C9_path_containment_amended "/data/production" "/index.html"
      ⟨["/data/production/index.html".data]⟩).2
      "/data/production/index.html".data (by decide)

/- ----------------------------------------------------------------------------
Shutdown handling: the two process.on("SIGTERM") listeners of part_006
(lines 2755-2759 and 3012-3030) and autoSaveDevChanges of part_007 lines
74-196.
---------------------------------------------------------------------------- -/

/-- Atomic actions observable during shutdown: the auto-save began (its
synchronous prefix ran and its first external git command was spawned), the
auto-save finished (commit and push completed), the child-process kills of
the second listener ran, and process.exit was called. -/
inductive ShutdownEv where
  | saveStart
  | saveComplete
  | killChildren
  | exitProc
deriving Repr, DecidableEq

/-- Cut an action stream at the first process.exit, which terminates the
process immediately: nothing after it ever runs. -/
def truncAtExit : List ShutdownEv → List ShutdownEv
  | [] => []
  | e :: es => if e = .exitProc then [e] else e :: truncAtExit es

/-- Semantics of emitting one signal under the Node event loop, for
listeners given as ordered lists of atomic segments.  Node calls every
registered listener synchronously in registration order; an async listener
runs only its first segment (up to its first await) during this phase, and
its remaining segments are continuations that can only run after the whole
synchronous phase, once the operations they await complete.  The resulting
action stream is cut at the first process.exit. -/
def runSignal (listeners : List (List (List ShutdownEv))) : List ShutdownEv :=
  truncAtExit ((listeners.map (fun l => l.headD [])).flatten ++
    (listeners.map (fun l => l.tail)).flatten.flatten)

/-- The two SIGTERM listeners of part_006 in registration order.  The first
(lines 2755-2759) is async: it logs, starts autoSaveDevChanges — which
suspends at its first await (the git status runCmd of part_007 line 82) —
and only after the save resolves would it call process.exit(0).  The second
(lines 3012-3030) is synchronous: it kills the gateway, dashboard and
dev-server children and calls process.exit(0) directly. -/
def sigtermListeners : List (List (List ShutdownEv)) :=
  [[[.saveStart], [.saveComplete, .exitProc]],
   [[.killChildren, .exitProc]]]

/-- The action stream produced by one SIGTERM delivery. -/
def sigtermTrace : List ShutdownEv := runSignal sigtermListeners

/-- C4 evaluation at the failing input — Shutdown drain ordering is broken
by the second SIGTERM listener.  On a single SIGTERM the process kills its
children and exits while the auto-save is still suspended at its first
await: the save never completes, so the claimed ordering (persist the dev
working tree first, then terminate children, then exit) does not hold.  The
trace is saveStart, killChildren, exitProc, and saveComplete never occurs. -/
theorem C4_shutdown_order_bug :
    sigtermTrace = [.saveStart, .killChildren, .exitProc] ∧
      ShutdownEv.saveComplete ∉ sigtermTrace := by
  constructor
  · rfl
  · decide

/- ----------------------------------------------------------------------------
Single-flight gateway startup: ensureGatewayRunning in src/src/lib/gateway.js
lines 322-340, under the single-threaded Node event loop.  Handler code runs
to completion between awaits, so the model is a small-step system whose
atomic steps are exactly the run-to-completion segments between suspension
points, interleaved by an arbitrary scheduler.
---------------------------------------------------------------------------- -/

/-- The value an ensureGatewayRunning call settles with: resolution with
ok true, rejection (the start body threw: config sync failed, token
mismatched, or readiness timed out), or resolution with ok false and reason
"not configured". -/
inductive EnsureResult where
  | resOk
  | resErr
  | resNotConfigured
deriving Repr, DecidableEq

/-- Where one caller of ensureGatewayRunning stands: about to run its
synchronous prefix; awaiting the shared gatewayStarting promise of attempt
k; or settled, remembering which attempt it awaited (none when it returned
on a fast path without awaiting any attempt). -/
inductive CallerPC where
  | entry
  | waiting (k : Nat)
  | done (r : EnsureResult) (via : Option Nat)
deriving Repr, DecidableEq

/-- Where the detached start body of the current attempt stands: no body in
flight; suspended inside startGateway's config sync, before the spawn; or
suspended in waitForGatewayReady's polling, after the spawn. -/
inductive BodyPC where
  | idle
  | syncing (k : Nat)
  | polling (k : Nat)
deriving Repr, DecidableEq

/-- Global state of the gateway module together with the in-flight callers.
syncOks and readys are per-attempt environment oracles: attempt k's config
sync (startGateway up to the spawn) succeeds iff syncOks[k], and its
readiness poll succeeds iff readys[k].  proc models gatewayProc being
non-null, starting models gatewayStarting (carrying the id of the in-flight
attempt; the single field mirrors the single module-level variable, so at
most one attempt is ever in flight), attempts counts the attempts begun,
spawns counts childProcess.spawn invocations. -/
structure EnsureSys where
  configured : Bool
  syncOks : List Bool
  readys : List Bool
  proc : Bool
  starting : Option Nat
  attempts : Nat
  spawns : Nat
  body : BodyPC
  callers : List CallerPC
deriving Repr, DecidableEq

/-- Oracle: does attempt k's config sync succeed. -/
def syncOkAt (s : EnsureSys) (k : Nat) : Bool := s.syncOks.getD k false

/-- Oracle: does attempt k's readiness poll succeed. -/
def readyAt (s : EnsureSys) (k : Nat) : Bool := s.readys.getD k false

/-- The outcome attempt k settles with: the shared promise resolves iff the
sync succeeded and the readiness poll succeeded, otherwise it rejects and
every awaiting call rejects with it. -/
def attemptResult (s : EnsureSys) (k : Nat) : EnsureResult :=
  if syncOkAt s k && readyAt s k then .resOk else .resErr

/-- One atomic step of caller i.  At entry this is the synchronous prefix
of ensureGatewayRunning (gateway.js lines 322-337): the isConfigured check,
the gatewayProc fast path, and — when gatewayStarting is null — installing
gatewayStarting synchronously (together with the synchronous prefix of the
start body, which runs before the first await) and then awaiting it; when a
start is already in flight the caller just awaits it.  A waiting caller can
step only once its attempt has settled (its finally cleared
gatewayStarting), and it then observes that attempt's outcome. -/
def stepCaller (s : EnsureSys) (i : Nat) : EnsureSys :=
  match s.callers.get? i with
  | none => s
  | some .entry =>
    if !s.configured then
      { s with callers := s.callers.set i (.done .resNotConfigured none) }
    else if s.proc then
      { s with callers := s.callers.set i (.done .resOk none) }
    else
      match s.starting with
      | some k => { s with callers := s.callers.set i (.waiting k) }
      | none =>
        { s with
          callers := s.callers.set i (.waiting s.attempts),
          starting := some s.attempts,
          attempts := s.attempts + 1,
          body := .syncing s.attempts }
  | some (.waiting k) =>
    if k < s.attempts && s.starting ≠ some k then
      { s with callers := s.callers.set i (.done (attemptResult s k) (some k)) }
    else s
  | some (.done _ _) => s

/-- One atomic step of the detached start body.  While syncing: when the
config sync succeeds, the spawn happens (gatewayProc is set) and the body
moves on to readiness polling; when it fails, startGateway threw before the
spawn, the body settles, and its finally clears gatewayStarting.  While
polling: the body settles and the finally clears gatewayStarting — on
readiness failure gatewayProc stays set, exactly as in the source, where
the spawned process keeps running after the readiness timeout. -/
def stepBody (s : EnsureSys) : EnsureSys :=
  match s.body with
  | .idle => s
  | .syncing k =>
    if syncOkAt s k then
      { s with proc := true, spawns := s.spawns + 1, body := .polling k }
    else { s with body := .idle, starting := none }
  | .polling _ => { s with body := .idle, starting := none }

/-- A scheduler choice: run one caller's next atomic step, or the body's. -/
inductive EnsureAct where
  | caller (i : Nat)
  | body
deriving Repr, DecidableEq

/-- Dispatch one scheduled atomic step. -/
def stepSys (s : EnsureSys) : EnsureAct → EnsureSys
  | .caller i => stepCaller s i
  | .body => stepBody s

/-- Run a schedule of atomic steps from a state. -/
def runSys (s : EnsureSys) (acts : List EnsureAct) : EnsureSys :=
  acts.foldl stepSys s

/-- The invariant carried through every schedule: the spawn count is tied
to gatewayProc (so it never exceeds one), a body that has not yet spawned
can only exist while gatewayProc is null, and every settled caller that
awaited attempt k observed exactly attempt k's outcome. -/
def EnsureInv (s : EnsureSys) : Prop :=
  (s.spawns = if s.proc then 1 else 0) ∧
  (∀ k, s.body = .syncing k → s.proc = false) ∧
  (∀ i r k, s.callers.get? i = some (.done r (some k)) → r = attemptResult s k)

theorem attemptResult_update_callers (s : EnsureSys) (cs : List CallerPC)
    (k : Nat) : attemptResult { s with callers := cs } k = attemptResult s k :=
  rfl

theorem ensureInv_set_nondone (s : EnsureSys) (i : Nat) (pc : CallerPC)
    (hpc : ∀ r k, pc ≠ .done r (some k)) (h : EnsureInv s) :
    EnsureInv { s with callers := s.callers.set i pc } := by
  obtain ⟨h1, h2, h3⟩ := h
  refine ⟨h1, h2, ?_⟩
  intro i' r k h'
  simp only at h'
  by_cases hii : i = i'
  · subst hii
    rw [List.get?_set_eq] at h'
    cases hgi : s.callers.get? i with
    | none => rw [hgi] at h'; simp at h'
    | some q =>
      rw [hgi] at h'
      simp only [Option.map_some] at h'
      exact absurd (Option.some.inj h') (hpc r k)
  · rw [List.get?_set_ne _ _ hii] at h'
    exact h3 i' r k h'

theorem ensureInv_set_done (s : EnsureSys) (i k0 : Nat) (h : EnsureInv s) :
    EnsureInv
      { s with callers :=
          s.callers.set i (.done (attemptResult s k0) (some k0)) } := by
  obtain ⟨h1, h2, h3⟩ := h
  refine ⟨h1, h2, ?_⟩
  intro i' r k h'
  simp only at h'
  by_cases hii : i = i'
  · subst hii
    rw [List.get?_set_eq] at h'
    cases hgi : s.callers.get? i with
    | none => rw [hgi] at h'; simp at h'
    | some q =>
      rw [hgi] at h'
      simp only [Option.map_some] at h'
      have := Option.some.inj h'
      cases this
      rfl
  · rw [List.get?_set_ne _ _ hii] at h'
    exact h3 i' r k h'

theorem stepCaller_none (s : EnsureSys) (i : Nat)
    (hci : s.callers.get? i = none) : stepCaller s i = s := by
  unfold stepCaller
  rw [hci]

theorem stepCaller_entry_notConf (s : EnsureSys) (i : Nat)
    (hci : s.callers.get? i = some .entry) (hc : s.configured = false) :
    stepCaller s i =
      { s with callers := s.callers.set i (.done .resNotConfigured none) } := by
  unfold stepCaller
  rw [hci]
  simp [hc]

theorem stepCaller_entry_proc (s : EnsureSys) (i : Nat)
    (hci : s.callers.get? i = some .entry) (hc : s.configured = true)
    (hp : s.proc = true) :
    stepCaller s i =
      { s with callers := s.callers.set i (.done .resOk none) } := by
  unfold stepCaller
  rw [hci]
  simp [hc, hp]

theorem stepCaller_entry_subscribe (s : EnsureSys) (i k : Nat)
    (hci : s.callers.get? i = some .entry) (hc : s.configured = true)
    (hp : s.proc = false) (hst : s.starting = some k) :
    stepCaller s i = { s with callers := s.callers.set i (.waiting k) } := by
  unfold stepCaller
  rw [hci]
  simp [hc, hp, hst]

theorem stepCaller_entry_initiate (s : EnsureSys) (i : Nat)
    (hci : s.callers.get? i = some .entry) (hc : s.configured = true)
    (hp : s.proc = false) (hst : s.starting = none) :
    stepCaller s i =
      { s with
        callers := s.callers.set i (.waiting s.attempts),
        starting := some s.attempts,
        attempts := s.attempts + 1,
        body := .syncing s.attempts } := by
  unfold stepCaller
  rw [hci]
  simp [hc, hp, hst]

theorem stepCaller_waiting_settled (s : EnsureSys) (i k : Nat)
    (hci : s.callers.get? i = some (.waiting k)) (hlt : k < s.attempts)
    (hns : s.starting ≠ some k) :
    stepCaller s i =
      { s with callers :=
          s.callers.set i (.done (attemptResult s k) (some k)) } := by
  unfold stepCaller
  rw [hci]
  simp [hlt, hns]

theorem stepCaller_waiting_pending (s : EnsureSys) (i k : Nat)
    (hci : s.callers.get? i = some (.waiting k))
    (hblock : ¬(k < s.attempts ∧ s.starting ≠ some k)) :
    stepCaller s i = s := by
  unfold stepCaller
  rw [hci]
  simp only [Bool.and_eq_true, decide_eq_true_eq]
  rw [if_neg hblock]

theorem stepCaller_done (s : EnsureSys) (i : Nat) (r : EnsureResult)
    (via : Option Nat) (hci : s.callers.get? i = some (.done r via)) :
    stepCaller s i = s := by
  unfold stepCaller
  rw [hci]

theorem ensureInv_initiate (s : EnsureSys) (i : Nat)
    (hp : s.proc = false) (h : EnsureInv s) :
    EnsureInv
      { s with
        callers := s.callers.set i (.waiting s.attempts),
        starting := some s.attempts,
        attempts := s.attempts + 1,
        body := .syncing s.attempts } := by
  obtain ⟨h1, h2, h3⟩ :=
    ensureInv_set_nondone s i (.waiting s.attempts) (by intro r k'; simp) h
  refine ⟨h1, fun k hk => hp, ?_⟩
  intro i' r k h'
  exact h3 i' r k h'

theorem ensureInv_stepCaller (s : EnsureSys) (i : Nat) (h : EnsureInv s) :
    EnsureInv (stepCaller s i) := by
  cases hci : s.callers.get? i with
  | none => rw [stepCaller_none s i hci]; exact h
  | some pc =>
    cases pc with
    | entry =>
      cases hc : s.configured with
      | false =>
        rw [stepCaller_entry_notConf s i hci hc]
        exact ensureInv_set_nondone s i _ (by intro r k; simp) h
      | true =>
        cases hp : s.proc with
        | true =>
          rw [stepCaller_entry_proc s i hci hc hp]
          exact ensureInv_set_nondone s i _ (by intro r k; simp) h
        | false =>
          cases hst : s.starting with
          | some k =>
            rw [stepCaller_entry_subscribe s i k hci hc hp hst]
            exact ensureInv_set_nondone s i _ (by intro r k'; simp) h
          | none =>
            rw [stepCaller_entry_initiate s i hci hc hp hst]
            exact ensureInv_initiate s i hp h
    | waiting k =>
      by_cases hsettled : k < s.attempts ∧ s.starting ≠ some k
      · rw [stepCaller_waiting_settled s i k hci hsettled.1 hsettled.2]
        exact ensureInv_set_done s i k h
      · rw [stepCaller_waiting_pending s i k hci hsettled]
        exact h
    | done r via =>
      rw [stepCaller_done s i r via hci]
      exact h

theorem stepBody_idle (s : EnsureSys) (hb : s.body = .idle) :
    stepBody s = s := by
  unfold stepBody
  rw [hb]

theorem stepBody_sync_ok (s : EnsureSys) (k : Nat)
    (hb : s.body = .syncing k) (hok : syncOkAt s k = true) :
    stepBody s =
      { s with proc := true, spawns := s.spawns + 1, body := .polling k } := by
  unfold stepBody
  rw [hb]
  simp [hok]

theorem stepBody_sync_fail (s : EnsureSys) (k : Nat)
    (hb : s.body = .syncing k) (hok : syncOkAt s k = false) :
    stepBody s = { s with body := .idle, starting := none } := by
  unfold stepBody
  rw [hb]
  simp [hok]

theorem stepBody_polling (s : EnsureSys) (k : Nat)
    (hb : s.body = .polling k) :
    stepBody s = { s with body := .idle, starting := none } := by
  unfold stepBody
  rw [hb]

theorem ensureInv_stepBody (s : EnsureSys) (h : EnsureInv s) :
    EnsureInv (stepBody s) := by
  obtain ⟨h1, h2, h3⟩ := h
  cases hb : s.body with
  | idle => rw [stepBody_idle s hb]; exact ⟨h1, h2, h3⟩
  | syncing k =>
    cases hok : syncOkAt s k with
    | true =>
      rw [stepBody_sync_ok s k hb hok]
      refine ⟨?_, ?_, ?_⟩
      · have hp := h2 k hb
        simp only
        rw [h1, hp]
        simp
      · intro k' hk'
        simp at hk'
      · intro i' r k' h'
        exact h3 i' r k' h'
    | false =>
      rw [stepBody_sync_fail s k hb hok]
      refine ⟨h1, ?_, ?_⟩
      · intro k' hk'
        simp at hk'
      · intro i' r k' h'
        exact h3 i' r k' h'
  | polling k =>
    rw [stepBody_polling s k hb]
    refine ⟨h1, ?_, ?_⟩
    · intro k' hk'
      simp at hk'
    · intro i' r k' h'
      exact h3 i' r k' h'

theorem ensureInv_step (s : EnsureSys) (a : EnsureAct) (h : EnsureInv s) :
    EnsureInv (stepSys s a) := by
  cases a with
  | caller i => exact ensureInv_stepCaller s i h
  | body => exact ensureInv_stepBody s h

theorem ensureInv_run (s : EnsureSys) (acts : List EnsureAct)
    (h : EnsureInv s) : EnsureInv (runSys s acts) := by
  induction acts generalizing s with
  | nil => exact h
  | cons a rest ih => exact ih (stepSys s a) (ensureInv_step s a h)

/-- Concrete scenario for C1: a configured deployment with no process and
no start in flight, two concurrent callers, and an attempt whose config
sync succeeds but whose readiness poll fails. -/
def c1Init : EnsureSys :=
  ⟨true, [true], [false], false, none, 0, 0, .idle, [.entry, .entry]⟩

/-- Interleaving for the C1 counterexample: caller 0 enters and initiates
the start; the body syncs and spawns; caller 1 enters while caller 0 is
still awaiting the in-flight start; the readiness poll fails and the
attempt settles; caller 0 resumes. -/
def c1Sched : List EnsureAct := [.caller 0, .body, .caller 1, .body, .caller 0]

/-- C1 counterexample: both callers invoke ensureGatewayRunning before the
first call resolves (caller 1's synchronous prefix runs at the third step,
while caller 0 is still awaiting), exactly one spawn occurs — yet the two
callers observe different outcomes: caller 0 awaits the in-flight start and
rejects with its readiness failure, while caller 1 returns ok through the
gatewayProc fast path of gateway.js line 324, without awaiting the
in-flight start.  This refutes "every caller awaits the same in-flight
start and observes the same successful or failed outcome" at a concrete
interleaving. -/
theorem C1_single_flight_counterexample :
    (runSys c1Init c1Sched).callers =
      [.done .resErr (some 0), .done .resOk none] ∧
    (runSys c1Init c1Sched).spawns = 1 ∧
    (runSys c1Init c1Sched).proc = true := by
  refine ⟨rfl, rfl, rfl⟩

/-- C1 amended — Single-flight startup.  From any initial state with no
gateway process, no spawn recorded, no start body in flight, and all
callers at entry, every interleaving of caller and body steps maintains:
(1) at most one spawn of the gateway process ever occurs (the per-id
in-flight guard gatewayStarting is installed synchronously before the first
suspension point, and the gatewayProc check keeps a second spawn from ever
happening while a process lives); (2) whenever a gateway process exists,
exactly one spawn has occurred; and (3) all callers that await the same
in-flight start observe the same outcome.  A caller whose synchronous
prefix runs after the spawn but before resolution returns ok immediately
through the gatewayProc fast path and may observe success even when the
in-flight start then fails — which is exactly what the counterexample
exhibits, and why the per-attempt agreement is the most that holds. -/
theorem C1_single_flight_amended (init : EnsureSys) (acts : List EnsureAct)
    (hproc : init.proc = false) (hspawn : init.spawns = 0)
    (hbody : init.body = .idle)
    (hcallers : ∀ pc ∈ init.callers, pc = .entry) :
    (runSys init acts).spawns ≤ 1 ∧
    ((runSys init acts).proc = true → (runSys init acts).spawns = 1) ∧
    (∀ i j ri rj k,
      (runSys init acts).callers.get? i = some (.done ri (some k)) →
      (runSys init acts).callers.get? j = some (.done rj (some k)) →
      ri = rj) := by
  have hinv : EnsureInv (runSys init acts) := by
    refine ensureInv_run init acts ⟨?_, ?_, ?_⟩
    · rw [hspawn, hproc]
      simp
    · intro k hk
      rw [hbody] at hk
      exact absurd hk (by simp)
    · intro i r k h'
      have hmem : CallerPC.done r (some k) ∈ init.callers :=
        List.get?_mem h'
      have := hcallers _ hmem
      exact absurd this (by simp)
  obtain ⟨h1, _, h3⟩ := hinv
  refine ⟨?_, ?_, ?_⟩
  · rw [h1]
    split <;> simp
  · intro hp
    rw [h1, hp]
    simp
  · intro i j ri rj k hi hj
    rw [h3 i ri k hi, h3 j rj k hj]

/-- Witness for the amended C1 at the concrete scenario of the
counterexample: its initial state satisfies the hypotheses, and the spawn
bound holds on its run. -/
theorem C1_single_flight_amended_witness :
    (runSys c1Init c1Sched).spawns ≤ 1 :=
  (C1_single_flight_amended c1Init c1Sched rfl rfl rfl (by decide)).1

/-- C10 — Not-configured start is a harmless no-op.  A caller running the
synchronous prefix of ensureGatewayRunning while the persisted
configuration artifact does not exist returns {ok: false, reason: "not
configured"} (modelled as resNotConfigured) without throwing: the only
change to the whole system state is that this caller settles — gatewayProc,
gatewayStarting, the attempt and spawn counters and the start body are all
untouched, so no gateway process is spawned and no in-flight-start state is
created or consumed. -/
theorem C10_not_configured_noop (s : EnsureSys) (i : Nat)
    (hconf : s.configured = false)
    (hentry : s.callers.get? i = some .entry) :
    stepCaller s i =
      { s with callers := s.callers.set i (.done .resNotConfigured none) } ∧
    (stepCaller s i).proc = s.proc ∧
    (stepCaller s i).starting = s.starting ∧
    (stepCaller s i).spawns = s.spawns ∧
    (stepCaller s i).attempts = s.attempts ∧
    (stepCaller s i).body = s.body := by
  have hmain := stepCaller_entry_notConf s i hentry hconf
  exact ⟨hmain, by rw [hmain], by rw [hmain], by rw [hmain], by rw [hmain],
    by rw [hmain]⟩

/-- Witness for C10 at a concrete input: one caller, not configured. -/
theorem C10_not_configured_noop_witness :
    stepCaller ⟨false, [], [], false, none, 0, 0, .idle, [.entry]⟩ 0 =
      ⟨false, [], [], false, none, 0, 0, .idle,
        [.done .resNotConfigured none]⟩ ∧
    (stepCaller ⟨false, [], [], false, none, 0, 0, .idle, [.entry]⟩ 0).spawns
      = 0 := by
  have h := C10_not_configured_noop
    ⟨false, [], [], false, none, 0, 0, .idle, [.entry]⟩ 0 rfl rfl
  exact ⟨h.1, h.2.2.2.1⟩
